import Mathlib

/-!
Verification development for the `ska-pst-stat` repository.

The definitions below are shallow embeddings of the Python sources:

* `src/python/src/ska_pst_stat/hdf5/consts.py` (key constants),
* `src/python/src/ska_pst_stat/hdf5/model.py` (key mapping, header dtype,
  metadata dataclass field set),
* `src/python/src/ska_pst_stat/stats.py` (`Statistics.load_from_file`),
* `src/python/src/ska_pst_stat/utility/hdf5_file_generator.py`
  (`StatConfig`, `_recalc_nbins`, `simple_gaussian_generator`, `_calc_stats`,
  `Hdf5FileGenerator.generate`).

Machine floats (`np.float32`/`np.float64`) are modelled with `ℚ` (exact
arithmetic); the integer voltage samples with `ℤ`; numpy arrays with
functions out of `ℕ` indices or with `List`s where the source manipulates
explicit index lists.
-/

namespace SkaPstStat

/-! ## `hdf5/consts.py`: key constants and the header key list -/

def HDF5_HEADER : String := "HEADER"
def HDF5_FILE_FORMAT_VERSION : String := "FILE_FORMAT_VERSION"
def HDF5_EB_ID : String := "EB_ID"
def HDF5_TELESCOPE : String := "TELESCOPE"
def HDF5_SCAN_ID : String := "SCAN_ID"
def HDF5_BEAM_ID : String := "BEAM_ID"
def HDF5_UTC_START : String := "UTC_START"
def HDF5_T_MIN : String := "T_MIN"
def HDF5_T_MAX : String := "T_MAX"
def HDF5_FREQ : String := "FREQ"
def HDF5_BW : String := "BW"
def HDF5_START_CHAN : String := "START_CHAN"
def HDF5_NPOL : String := "NPOL"
def HDF5_NDIM : String := "NDIM"
def HDF5_NCHAN : String := "NCHAN"
def HDF5_NCHAN_DS : String := "NCHAN_DS"
def HDF5_NDAT_DS : String := "NDAT_DS"
def HDF5_NBIN_HIST : String := "NBIN_HIST"
def HDF5_NREBIN : String := "NREBIN"
def HDF5_CHAN_FREQ : String := "CHAN_FREQ"
def HDF5_FREQUENCY_BINS : String := "FREQUENCY_BINS"
def HDF5_TIMESERIES_BINS : String := "TIMESERIES_BINS"

/-- The `HDF5_HEADER_KEYS` list of `hdf5/consts.py` (21 entries). -/
def HDF5_HEADER_KEYS : List String :=
  [ HDF5_FILE_FORMAT_VERSION, HDF5_EB_ID, HDF5_TELESCOPE, HDF5_SCAN_ID,
    HDF5_BEAM_ID, HDF5_UTC_START, HDF5_T_MIN, HDF5_T_MAX, HDF5_FREQ, HDF5_BW,
    HDF5_START_CHAN, HDF5_NPOL, HDF5_NDIM, HDF5_NCHAN, HDF5_NCHAN_DS,
    HDF5_NDAT_DS, HDF5_NBIN_HIST, HDF5_NREBIN, HDF5_CHAN_FREQ,
    HDF5_FREQUENCY_BINS, HDF5_TIMESERIES_BINS ]

/-! ## `hdf5/model.py`: key mapping, header dtype and metadata field set -/

/-- The `KEY_MAP` dictionary of `hdf5/model.py`. -/
def KEY_MAP : List (String × String) :=
  [ (HDF5_BW, "bandwidth_mhz"),
    (HDF5_FREQ, "frequency_mhz"),
    (HDF5_NBIN_HIST, "histogram_nbin"),
    (HDF5_CHAN_FREQ, "channel_freq_mhz") ]

/-- Python's `str.lower()`, character by character (the HDF5 keys are all
ASCII). -/
def lower_string (s : String) : String := String.mk (s.data.map Char.toLower)

/-- `map_hdf5_key` of `hdf5/model.py`: look the key up in `KEY_MAP`,
falling back to lower-casing on a `KeyError`. -/
def map_hdf5_key (hdf5_key : String) : String :=
  match KEY_MAP.lookup hdf5_key with
  | some v => v
  | none => lower_string hdf5_key

/-- The field names of the `HDF5_HEADER_TYPE` numpy compound dtype declared in
`hdf5/model.py` (lines 91-114): 20 fields. -/
def HDF5_HEADER_TYPE_fields : List String :=
  [ HDF5_EB_ID, HDF5_TELESCOPE, HDF5_SCAN_ID, HDF5_BEAM_ID, HDF5_UTC_START,
    HDF5_T_MIN, HDF5_T_MAX, HDF5_FREQ, HDF5_BW, HDF5_START_CHAN, HDF5_NPOL,
    HDF5_NDIM, HDF5_NCHAN, HDF5_NCHAN_DS, HDF5_NDAT_DS, HDF5_NBIN_HIST,
    HDF5_NREBIN, HDF5_CHAN_FREQ, HDF5_FREQUENCY_BINS, HDF5_TIMESERIES_BINS ]

/-- The field names of the `StatisticsMetadata` dataclass declared in
`hdf5/model.py` (lines 181-198): 18 fields. -/
def StatisticsMetadata_fields : List String :=
  [ "file_format_version", "eb_id", "telescope", "scan_id", "beam_id",
    "utc_start", "t_min", "t_max", "frequency_mhz", "bandwidth_mhz",
    "start_chan", "npol", "ndim", "nchan", "nchan_ds", "ndat_ds",
    "histogram_nbin", "nrebin" ]

/-- The keyword-argument names passed to the `StatisticsMetadata` constructor
by `_calc_stats` in `utility/hdf5_file_generator.py` (lines 549-575):
25 keywords. -/
def calc_stats_metadata_kwargs : List String :=
  [ "file_format_version", "eb_id", "telescope", "scan_id", "beam_id",
    "utc_start", "t_min", "t_max", "frequency_mhz", "bandwidth_mhz",
    "start_chan", "npol", "ndim", "nchan", "nchan_ds", "ndat_ds",
    "histogram_nbin", "nrebin", "channel_freq_mhz", "timeseries_bins",
    "frequency_bins", "num_samples", "num_samples_rfi_excised",
    "num_samples_spectrum", "num_invalid_packets" ]

/-- The metadata attributes placed, in order, into the single header row that
`Hdf5FileGenerator.generate` builds with `dtype=HDF5_HEADER_TYPE`
(`utility/hdf5_file_generator.py` lines 256-286): a 24-tuple. -/
def generate_header_row_attrs : List String :=
  [ "eb_id", "telescope", "scan_id", "beam_id", "utc_start", "t_min", "t_max",
    "frequency_mhz", "bandwidth_mhz", "start_chan", "npol", "ndim", "nchan",
    "nchan_ds", "ndat_ds", "histogram_nbin", "nrebin", "channel_freq_mhz",
    "frequency_bins", "timeseries_bins", "num_samples",
    "num_samples_rfi_excised", "num_samples_spectrum", "num_invalid_packets" ]

/-! ## `utility/hdf5_file_generator.py`: `StatConfig` -/

/-- The `StatConfig` dataclass (field defaults taken from the source). -/
structure StatConfig where
  npol : ℕ := 2
  ndim : ℕ := 2
  nchan : ℕ := 432
  nsamp : ℕ := 32
  nheap : ℕ := 1
  nbit : ℕ := 16
  nfreq_bins : ℕ := 36
  ntime_bins : ℕ := 4
  nrebin : ℕ := 256
  sigma : ℚ := 6
  freq_mask : String := ""
  frequency_mhz : ℚ := 875 / 10
  bandwidth_mhz : ℚ := 75
  start_chan : ℕ := 0
  tsamp : ℚ := 20736 / 100
  os_factor : ℚ := 4 / 3
  deriving DecidableEq

/-- Descent of the `while nbin_factor > 1` loop of `_recalc_nbins`: starting
from factor `j` and counting down, return `numItems / j` for the first `j`
dividing `numItems`, else `numItems`. -/
def recalc_loop (numItems : ℕ) : ℕ → ℕ
  | 0 => numItems
  | 1 => numItems
  | j + 2 =>
      if numItems % (j + 2) = 0 then numItems / (j + 2)
      else recalc_loop numItems (j + 1)

/-- The inner `_recalc_nbins` helper of `StatConfig.__post_init__`. -/
def recalc_nbins (numItems reqBins : ℕ) : ℕ :=
  if numItems % reqBins = 0 then reqBins
  else recalc_loop numItems (max (numItems / reqBins) 1)

/-- Failures that `StatConfig.__post_init__` can raise: the `nbit` validation
(an `assert` in the source; the spec's `ConfigError`), and Python's
`ZeroDivisionError` from `num_items % req_bins` when a requested bin count
is zero. -/
inductive GenError where
  | configError
  | zeroDivision
  deriving DecidableEq

/-- `StatConfig.__post_init__`: validate `nbit`, then replace the requested
`nfreq_bins` and `ntime_bins` by `_recalc_nbins` of `nchan` and
`nheap * nsamp` respectively. -/
def StatConfig.post_init (c : StatConfig) : Except GenError StatConfig :=
  if c.nbit = 8 ∨ c.nbit = 16 then
    if c.nfreq_bins = 0 then .error .zeroDivision
    else if c.ntime_bins = 0 then .error .zeroDivision
    else .ok { c with
      nfreq_bins := recalc_nbins c.nchan c.nfreq_bins,
      ntime_bins := recalc_nbins (c.nheap * c.nsamp) c.ntime_bins }
  else .error .configError

/-- `StatConfig.nbit_limit`: `2 ** (nbit - 1)`. -/
def StatConfig.nbit_limit (c : StatConfig) : ℕ := 2 ^ (c.nbit - 1)

/-- `StatConfig.clipped_low`: `-nbit_limit`. -/
def StatConfig.clipped_low (c : StatConfig) : ℤ := -(c.nbit_limit : ℤ)

/-- `StatConfig.clipped_high`: `nbit_limit - 1`. -/
def StatConfig.clipped_high (c : StatConfig) : ℤ := (c.nbit_limit : ℤ) - 1

/-- `StatConfig.scale`: `sigma / nbit_limit`. -/
def StatConfig.scale (c : StatConfig) : ℚ := c.sigma / (c.nbit_limit : ℚ)

/-- `StatConfig.nbin`: `1 <<< nbit`. -/
def StatConfig.nbin (c : StatConfig) : ℕ := 2 ^ c.nbit

/-- `StatConfig.rebin_offset`: `nrebin // 2`. -/
def StatConfig.rebin_offset (c : StatConfig) : ℕ := c.nrebin / 2

/-- `StatConfig.rebin_max`: `nrebin - 1`. -/
def StatConfig.rebin_max (c : StatConfig) : ℕ := c.nrebin - 1

/-- `StatConfig.total_samples_per_channel`: `nheap * nsamp`. -/
def StatConfig.total_samples_per_channel (c : StatConfig) : ℕ := c.nheap * c.nsamp

/-- `StatConfig.rfi_excised_channel_indexes`: always the empty list in the
reference generator. -/
def StatConfig.rfi_excised_channel_indexes (_ : StatConfig) : List ℕ := []

/-- `StatConfig.non_rfi_channel_indexes`: the channels not in the RFI-excised
index list. -/
def StatConfig.non_rfi_channel_indexes (c : StatConfig) : List ℕ :=
  (List.range c.nchan).filter (fun ch => !(c.rfi_excised_channel_indexes.contains ch))

/-! ## `simple_gaussian_generator` and the statistics computed by `_calc_stats`

The raw voltage array of shape `(npol, ndim, nchan, total_samples_per_channel)`
is modelled as a function of the four indices; the random standard-normal draw
is modelled by quantifying over an arbitrary `Noise` function. -/

/-- A raw integer sample array indexed by (pol, dim, channel, sample). -/
def RawData : Type := ℕ → ℕ → ℕ → ℕ → ℤ

/-- An arbitrary real-valued draw indexed by (pol, dim, channel, sample),
standing for `np.random.randn(...)`. -/
def Noise : Type := ℕ → ℕ → ℕ → ℕ → ℚ

/-- `np.rint`: round to the nearest integer, rounding halves to even. -/
def rint (q : ℚ) : ℤ :=
  if q - (⌊q⌋ : ℚ) < 1 / 2 then ⌊q⌋
  else if (1 : ℚ) / 2 < q - (⌊q⌋ : ℚ) then ⌊q⌋ + 1
  else if ⌊q⌋ % 2 = 0 then ⌊q⌋ else ⌊q⌋ + 1

/-- The two clipping assignments of `simple_gaussian_generator`:
`data[data < min_value] = min_value` then `data[data > max_value] = max_value`. -/
def clip_sample (c : StatConfig) (v : ℤ) : ℤ :=
  let v1 := if v < c.clipped_low then c.clipped_low else v
  if c.clipped_high < v1 then c.clipped_high else v1

/-- One sample yielded by `simple_gaussian_generator`: divide the normal draw
by `scale`, `np.rint` it, clip it into the `nbit` range. -/
def gen_sample (c : StatConfig) (x : ℚ) : ℤ := clip_sample c (rint (x / c.scale))

/-- The raw array yielded by `simple_gaussian_generator` for a given draw. -/
def gen_raw (c : StatConfig) (noise : Noise) : RawData :=
  fun p d ch s => gen_sample c (noise p d ch s)

/-- `raw_flattened = np.reshape(raw, (npol, ndim, -1))`: C-order flattening of
the (channel, sample) axes, so flat index `i` addresses channel `i / tspc`,
sample `i % tspc`. -/
def raw_flattened (c : StatConfig) (raw : RawData) (p d i : ℕ) : ℤ :=
  raw p d (i / c.total_samples_per_channel) (i % c.total_samples_per_channel)

/-- `scaled = config.scale * raw`. -/
def scaled (c : StatConfig) (raw : RawData) (p d ch s : ℕ) : ℚ :=
  c.scale * (raw p d ch s : ℚ)

/-- Sum of `scaled` over the sample axis for one (pol, dim, channel). -/
def sample_sum (c : StatConfig) (raw : RawData) (p d ch : ℕ) : ℚ :=
  ∑ s in Finset.range c.total_samples_per_channel, scaled c raw p d ch s

/-- `mean_spectrum = np.mean(scaled, axis=-1)`. -/
def mean_spectrum (c : StatConfig) (raw : RawData) (p d ch : ℕ) : ℚ :=
  sample_sum c raw p d ch / (c.total_samples_per_channel : ℚ)

/-- `variance_spectrum = np.var(scaled, axis=-1, ddof=1)`: per-channel sample
variance with divisor `N - 1`. -/
def variance_spectrum (c : StatConfig) (raw : RawData) (p d ch : ℕ) : ℚ :=
  (∑ s in Finset.range c.total_samples_per_channel,
      (scaled c raw p d ch s - mean_spectrum c raw p d ch) ^ 2) / ((c.total_samples_per_channel : ℚ) - 1)

/-- `np.mean` of a 1-D vector. -/
def vec_mean (xs : List ℚ) : ℚ := xs.sum / (xs.length : ℚ)

/-- `mean_frequency_avg = np.mean(mean_spectrum, axis=-1)`. -/
def mean_frequency_avg (c : StatConfig) (raw : RawData) (p d : ℕ) : ℚ :=
  vec_mean ((List.range c.nchan).map (mean_spectrum c raw p d))

/-- `mean_frequency_avg_rfi_excised =
np.mean(mean_spectrum[:, :, non_rfi_channel_idx], axis=-1)`. -/
def mean_frequency_avg_rfi_excised (c : StatConfig) (raw : RawData) (p d : ℕ) : ℚ :=
  vec_mean (c.non_rfi_channel_indexes.map (mean_spectrum c raw p d))

/-- Mean of `scaled` over the combined (channel, sample) axes restricted to a
channel list: the mean underlying `np.var(scaled[:, :, cs, :], axis=(-2,-1))`. -/
def pooled_mean_over (cs : List ℕ) (c : StatConfig) (raw : RawData) (p d : ℕ) : ℚ :=
  (cs.map (sample_sum c raw p d)).sum / ((cs.length * c.total_samples_per_channel : ℕ) : ℚ)

/-- `np.var(scaled[:, :, cs, :], axis=(-2,-1), ddof=1)`: variance of `scaled`
pooled over the combined (channel, sample) axes of the listed channels,
with divisor `N - 1`. -/
def pooled_var_over (cs : List ℕ) (c : StatConfig) (raw : RawData) (p d : ℕ) : ℚ :=
  (cs.map (fun ch => ∑ s in Finset.range c.total_samples_per_channel,
      (scaled c raw p d ch s - pooled_mean_over cs c raw p d) ^ 2)).sum
    / (((cs.length * c.total_samples_per_channel : ℕ) : ℚ) - 1)

/-- `variance_frequency_avg = np.var(scaled, axis=(-2,-1), ddof=1)`. -/
def variance_frequency_avg (c : StatConfig) (raw : RawData) (p d : ℕ) : ℚ :=
  pooled_var_over (List.range c.nchan) c raw p d

/-- `variance_frequency_avg_rfi_excised =
np.var(scaled[:, :, non_rfi_channel_idx, :], axis=(-2,-1), ddof=1)`. -/
def variance_frequency_avg_rfi_excised (c : StatConfig) (raw : RawData) (p d : ℕ) : ℚ :=
  pooled_var_over c.non_rfi_channel_indexes c raw p d

/-- `power = np.sum(scaled ** 2, axis=1)`: sum over the complex-dim axis. -/
def power (c : StatConfig) (raw : RawData) (p ch s : ℕ) : ℚ :=
  ∑ d in Finset.range c.ndim, (scaled c raw p d ch s) ^ 2

/-- One spectrogram cell: `np.sum(power[:, ichan:ichan+freq_bin_factor,
isamp:isamp+temporal_bin_factor])` for `ichan = fb * freq_bin_factor` and
`isamp = tb * temporal_bin_factor`, with
`freq_bin_factor = nchan // nfreq_bins` and
`temporal_bin_factor = total_samples_per_channel // ntime_bins`. -/
def spectrogram (c : StatConfig) (raw : RawData) (p fb tb : ℕ) : ℚ :=
  ∑ i in Finset.range (c.nchan / c.nfreq_bins),
    ∑ j in Finset.range (c.total_samples_per_channel / c.ntime_bins),
      power c raw p (fb * (c.nchan / c.nfreq_bins) + i)
        (tb * (c.total_samples_per_channel / c.ntime_bins) + j)

/-- The bin that `np.histogram(values, bins=nbin,
range=(clipped_low, clipped_high))` assigns to an integer value: `none` for
out-of-range values, otherwise the linear bin index with the top edge landing
in the last bin. -/
def bin_index (c : StatConfig) (v : ℤ) : Option ℕ :=
  if v < c.clipped_low ∨ c.clipped_high < v then none
  else some (min ((v - c.clipped_low).toNat * c.nbin / (c.clipped_high - c.clipped_low).toNat)
    (c.nbin - 1))

/-- The full flattened sample list `raw_flattened[ipol, idim]` of length
`nchan * total_samples_per_channel`. -/
def flattened_list (c : StatConfig) (raw : RawData) (p d : ℕ) : List ℤ :=
  (List.range (c.nchan * c.total_samples_per_channel)).map (raw_flattened c raw p d)

/-- `histogram_1d_freq_avg[ipol, idim] = np.histogram(raw_flattened[ipol,
idim], bins=nbin, range=(clipped_low, clipped_high))[0]`, one bin at a time. -/
def histogram_1d_freq_avg (c : StatConfig) (raw : RawData) (p d b : ℕ) : ℕ :=
  (flattened_list c raw p d).countP (fun v => bin_index c v == some b)

/-- `histogram_1d_freq_avg_rfi_excised[ipol, idim] =
np.histogram(raw_flattened[ipol, idim, non_rfi_channel_idx], ...)`: the
channel index list is applied by numpy fancy indexing to the already
flattened (channel, sample) axis, selecting the flat positions named by the
channel indexes. -/
def histogram_1d_freq_avg_rfi_excised (c : StatConfig) (raw : RawData) (p d b : ℕ) : ℕ :=
  (c.non_rfi_channel_indexes.map (raw_flattened c raw p d)).countP
    (fun v => bin_index c v == some b)

/-! ## `stats.py`: `Statistics.load_from_file`

The HDF5 container is modelled as a finite map from dataset names to typed
values; the filesystem as a partial map from paths to containers.  The header
is the single compound row, itself a finite map from field names to scalar or
vector values.  `h5py` raises `KeyError` on a missing dataset or compound
field; reading a value at the wrong type is a `typeError`. -/

def HDF5_MEAN_FREQUENCY_AVG : String := "MEAN_FREQUENCY_AVG"
def HDF5_MEAN_FREQUENCY_AVG_RFI_EXCISED : String := "MEAN_FREQUENCY_AVG_RFI_EXCISED"
def HDF5_VARIANCE_FREQUENCY_AVG : String := "VARIANCE_FREQUENCY_AVG"
def HDF5_VARIANCE_FREQUENCY_AVG_RFI_EXCISED : String := "VARIANCE_FREQUENCY_AVG_RFI_EXCISED"
def HDF5_MEAN_SPECTRUM : String := "MEAN_SPECTRUM"
def HDF5_VARIANCE_SPECTRUM : String := "VARIANCE_SPECTRUM"
def HDF5_MEAN_SPECTRAL_POWER : String := "MEAN_SPECTRAL_POWER"
def HDF5_MAX_SPECTRAL_POWER : String := "MAX_SPECTRAL_POWER"
def HDF5_HISTOGRAM_1D_FREQ_AVG : String := "HISTOGRAM_1D_FREQ_AVG"
def HDF5_HISTOGRAM_1D_FREQ_AVG_RFI_EXCISED : String := "HISTOGRAM_1D_FREQ_AVG_RFI_EXCISED"
def HDF5_HISTOGRAM_REBINNED_2D_FREQ_AVG : String := "HISTOGRAM_REBINNED_2D_FREQ_AVG"
def HDF5_HISTOGRAM_REBINNED_2D_FREQ_AVG_RFI_EXCISED : String :=
  "HISTOGRAM_REBINNED_2D_FREQ_AVG_RFI_EXCISED"
def HDF5_HISTOGRAM_REBINNED_1D_FREQ_AVG : String := "HISTOGRAM_REBINNED_1D_FREQ_AVG"
def HDF5_HISTOGRAM_REBINNED_1D_FREQ_AVG_RFI_EXCISED : String :=
  "HISTOGRAM_REBINNED_1D_FREQ_AVG_RFI_EXCISED"
def HDF5_NUM_CLIPPED_SAMPLES_SPECTRUM : String := "NUM_CLIPPED_SAMPLES_SPECTRUM"
def HDF5_NUM_CLIPPED_SAMPLES : String := "NUM_CLIPPED_SAMPLES"
def HDF5_NUM_CLIPPED_SAMPLES_RFI_EXCISED : String := "NUM_CLIPPED_SAMPLES_RFI_EXCISED"
def HDF5_SPECTROGRAM : String := "SPECTROGRAM"
def HDF5_TIMESERIES : String := "TIMESERIES"
def HDF5_TIMESERIES_RFI_EXCISED : String := "TIMESERIES_RFI_EXCISED"

/-- Header keys referenced by `stats.py` under the names `HDF5_NUM_SAMPLES`
etc.; `stats.py` imports them from `hdf5/consts.py`, which does not define
them (part of the schema-version skew recorded under claim C1). -/
def HDF5_NUM_SAMPLES : String := "NUM_SAMPLES"

def HDF5_NUM_SAMPLES_RFI_EXCISED : String := "NUM_SAMPLES_RFI_EXCISED"
def HDF5_NUM_SAMPLES_SPECTRUM : String := "NUM_SAMPLES_SPECTRUM"
def HDF5_NUM_INVALID_PACKETS : String := "NUM_INVALID_PACKETS"

/-- A scalar or vector value stored in one field of the compound header row. -/
inductive HeaderVal where
  | s (v : String)
  | f (v : ℚ)
  | n (v : ℕ)
  | fvec (v : List ℚ)
  | nvec (v : List ℕ)

/-- A top-level HDF5 entry: the format-version string, the single-row header
record, or a numeric dataset (float or unsigned, stored flattened). -/
inductive H5Value where
  | str (v : String)
  | headerRec (fields : List (String × HeaderVal))
  | farr (v : List ℚ)
  | narr (v : List ℕ)

/-- An HDF5 file: named, typed entries. -/
def H5File : Type := List (String × H5Value)

/-- The filesystem as seen by `pathlib.Path.exists` / `h5py.File`. -/
def Filesystem : Type := String → Option H5File

/-- Failures of `Statistics.load_from_file`: the missing-path `assert` (the
spec's `NotFoundError`), `h5py`'s `KeyError` on a missing dataset or header
field, and a wrongly typed entry (the spec's `FormatError`). -/
inductive LoadError where
  | notFound
  | keyError
  | typeError
  deriving DecidableEq

/-- Look a dataset up in an open file, as `f[key]`. -/
def getDataset (f : H5File) (k : String) : Except LoadError H5Value :=
  match f.lookup k with
  | some v => .ok v
  | none => .error .keyError

/-- Read a top-level entry as a string scalar. -/
def asStr : H5Value → Except LoadError String
  | .str v => .ok v
  | _ => .error .typeError

/-- Read a top-level entry as the compound header row. -/
def asHeaderRec : H5Value → Except LoadError (List (String × HeaderVal))
  | .headerRec v => .ok v
  | _ => .error .typeError

/-- Read a top-level entry as a float dataset. -/
def asFarr : H5Value → Except LoadError (List ℚ)
  | .farr v => .ok v
  | _ => .error .typeError

/-- Read a top-level entry as an unsigned dataset. -/
def asNarr : H5Value → Except LoadError (List ℕ)
  | .narr v => .ok v
  | _ => .error .typeError

/-- Read a string field of the header row (`hdf5_header[KEY].decode("utf-8")`). -/
def headerS (h : List (String × HeaderVal)) (k : String) : Except LoadError String :=
  match h.lookup k with
  | some (.s v) => .ok v
  | some _ => .error .typeError
  | none => .error .keyError

/-- Read a float field of the header row. -/
def headerF (h : List (String × HeaderVal)) (k : String) : Except LoadError ℚ :=
  match h.lookup k with
  | some (.f v) => .ok v
  | some _ => .error .typeError
  | none => .error .keyError

/-- Read an unsigned field of the header row. -/
def headerN (h : List (String × HeaderVal)) (k : String) : Except LoadError ℕ :=
  match h.lookup k with
  | some (.n v) => .ok v
  | some _ => .error .typeError
  | none => .error .keyError

/-- Read a variable-length float field of the header row. -/
def headerFvec (h : List (String × HeaderVal)) (k : String) : Except LoadError (List ℚ) :=
  match h.lookup k with
  | some (.fvec v) => .ok v
  | some _ => .error .typeError
  | none => .error .keyError

/-- Read a variable-length unsigned field of the header row. -/
def headerNvec (h : List (String × HeaderVal)) (k : String) : Except LoadError (List ℕ) :=
  match h.lookup k with
  | some (.nvec v) => .ok v
  | some _ => .error .typeError
  | none => .error .keyError

/-- The metadata record that `Statistics.load_from_file` populates (the
keyword set of the `StatisticsMetadata(...)` call in `stats.py`). -/
structure LoadedMetadata where
  file_format_version : String
  eb_id : String
  telescope : String
  scan_id : ℕ
  beam_id : String
  utc_start : String
  t_min : ℚ
  t_max : ℚ
  frequency_mhz : ℚ
  bandwidth_mhz : ℚ
  start_chan : ℕ
  npol : ℕ
  ndim : ℕ
  nchan : ℕ
  nchan_ds : ℕ
  ndat_ds : ℕ
  histogram_nbin : ℕ
  nrebin : ℕ
  channel_freq_mhz : List ℚ
  timeseries_bins : List ℚ
  frequency_bins : List ℚ
  num_samples : ℕ
  num_samples_rfi_excised : ℕ
  num_samples_spectrum : List ℕ
  num_invalid_packets : ℕ

/-- The data record that `Statistics.load_from_file` populates (the keyword
set of the `StatisticsData(...)` call in `stats.py`). -/
structure LoadedData where
  mean_frequency_avg : List ℚ
  mean_frequency_avg_rfi_excised : List ℚ
  variance_frequency_avg : List ℚ
  variance_frequency_avg_rfi_excised : List ℚ
  mean_spectrum : List ℚ
  variance_spectrum : List ℚ
  mean_spectral_power : List ℚ
  max_spectral_power : List ℚ
  histogram_1d_freq_avg : List ℕ
  histogram_1d_freq_avg_rfi_excised : List ℕ
  rebinned_histogram_2d_freq_avg : List ℕ
  rebinned_histogram_2d_freq_avg_rfi_excised : List ℕ
  rebinned_histogram_1d_freq_avg : List ℕ
  rebinned_histogram_1d_freq_avg_rfi_excised : List ℕ
  num_clipped_samples_spectrum : List ℕ
  num_clipped_samples : List ℕ
  num_clipped_samples_rfi_excised : List ℕ
  spectrogram : List ℚ
  timeseries : List ℚ
  timeseries_rfi_excised : List ℚ

/-- The body of the `with h5py.File(...)` block of `Statistics.load_from_file`
(`stats.py` lines 111-171): read the format version, the header row and every
field and dataset, then assemble the aggregates.  Any missing or wrongly
typed entry aborts the whole decode; no partial result is produced. -/
def decode_statistics (f : H5File) : Except LoadError (LoadedMetadata × LoadedData) := do
  let file_format_version ← getDataset f HDF5_FILE_FORMAT_VERSION >>= asStr
  let hdr ← getDataset f HDF5_HEADER >>= asHeaderRec
  let eb_id ← headerS hdr HDF5_EB_ID
  let telescope ← headerS hdr HDF5_TELESCOPE
  let scan_id ← headerN hdr HDF5_SCAN_ID
  let beam_id ← headerS hdr HDF5_BEAM_ID
  let utc_start ← headerS hdr HDF5_UTC_START
  let t_min ← headerF hdr HDF5_T_MIN
  let t_max ← headerF hdr HDF5_T_MAX
  let frequency_mhz ← headerF hdr HDF5_FREQ
  let bandwidth_mhz ← headerF hdr HDF5_BW
  let start_chan ← headerN hdr HDF5_START_CHAN
  let npol ← headerN hdr HDF5_NPOL
  let ndim ← headerN hdr HDF5_NDIM
  let nchan ← headerN hdr HDF5_NCHAN
  let nchan_ds ← headerN hdr HDF5_NCHAN_DS
  let ndat_ds ← headerN hdr HDF5_NDAT_DS
  let histogram_nbin ← headerN hdr HDF5_NBIN_HIST
  let nrebin ← headerN hdr HDF5_NREBIN
  let channel_freq_mhz ← headerFvec hdr HDF5_CHAN_FREQ
  let timeseries_bins ← headerFvec hdr HDF5_TIMESERIES_BINS
  let frequency_bins ← headerFvec hdr HDF5_FREQUENCY_BINS
  let num_samples ← headerN hdr HDF5_NUM_SAMPLES
  let num_samples_rfi_excised ← headerN hdr HDF5_NUM_SAMPLES_RFI_EXCISED
  let num_samples_spectrum ← headerNvec hdr HDF5_NUM_SAMPLES_SPECTRUM
  let num_invalid_packets ← headerN hdr HDF5_NUM_INVALID_PACKETS
  let mean_frequency_avg ← getDataset f HDF5_MEAN_FREQUENCY_AVG >>= asFarr
  let mean_frequency_avg_rfi_excised ←
    getDataset f HDF5_MEAN_FREQUENCY_AVG_RFI_EXCISED >>= asFarr
  let variance_frequency_avg ← getDataset f HDF5_VARIANCE_FREQUENCY_AVG >>= asFarr
  let variance_frequency_avg_rfi_excised ←
    getDataset f HDF5_VARIANCE_FREQUENCY_AVG_RFI_EXCISED >>= asFarr
  let mean_spectrum ← getDataset f HDF5_MEAN_SPECTRUM >>= asFarr
  let variance_spectrum ← getDataset f HDF5_VARIANCE_SPECTRUM >>= asFarr
  let mean_spectral_power ← getDataset f HDF5_MEAN_SPECTRAL_POWER >>= asFarr
  let max_spectral_power ← getDataset f HDF5_MAX_SPECTRAL_POWER >>= asFarr
  let histogram_1d_freq_avg ← getDataset f HDF5_HISTOGRAM_1D_FREQ_AVG >>= asNarr
  let histogram_1d_freq_avg_rfi_excised ←
    getDataset f HDF5_HISTOGRAM_1D_FREQ_AVG_RFI_EXCISED >>= asNarr
  let rebinned_histogram_2d_freq_avg ←
    getDataset f HDF5_HISTOGRAM_REBINNED_2D_FREQ_AVG >>= asNarr
  let rebinned_histogram_2d_freq_avg_rfi_excised ←
    getDataset f HDF5_HISTOGRAM_REBINNED_2D_FREQ_AVG_RFI_EXCISED >>= asNarr
  let rebinned_histogram_1d_freq_avg ←
    getDataset f HDF5_HISTOGRAM_REBINNED_1D_FREQ_AVG >>= asNarr
  let rebinned_histogram_1d_freq_avg_rfi_excised ←
    getDataset f HDF5_HISTOGRAM_REBINNED_1D_FREQ_AVG_RFI_EXCISED >>= asNarr
  let num_clipped_samples_spectrum ←
    getDataset f HDF5_NUM_CLIPPED_SAMPLES_SPECTRUM >>= asNarr
  let num_clipped_samples ← getDataset f HDF5_NUM_CLIPPED_SAMPLES >>= asNarr
  let num_clipped_samples_rfi_excised ←
    getDataset f HDF5_NUM_CLIPPED_SAMPLES_RFI_EXCISED >>= asNarr
  let spectrogram ← getDataset f HDF5_SPECTROGRAM >>= asFarr
  let timeseries ← getDataset f HDF5_TIMESERIES >>= asFarr
  let timeseries_rfi_excised ← getDataset f HDF5_TIMESERIES_RFI_EXCISED >>= asFarr
  return (
    ( { file_format_version, eb_id, telescope, scan_id, beam_id, utc_start,
        t_min, t_max, frequency_mhz, bandwidth_mhz, start_chan, npol, ndim,
        nchan, nchan_ds, ndat_ds, histogram_nbin, nrebin, channel_freq_mhz,
        timeseries_bins, frequency_bins, num_samples, num_samples_rfi_excised,
        num_samples_spectrum, num_invalid_packets },
      { mean_frequency_avg, mean_frequency_avg_rfi_excised,
        variance_frequency_avg, variance_frequency_avg_rfi_excised,
        mean_spectrum, variance_spectrum, mean_spectral_power,
        max_spectral_power, histogram_1d_freq_avg,
        histogram_1d_freq_avg_rfi_excised, rebinned_histogram_2d_freq_avg,
        rebinned_histogram_2d_freq_avg_rfi_excised,
        rebinned_histogram_1d_freq_avg,
        rebinned_histogram_1d_freq_avg_rfi_excised,
        num_clipped_samples_spectrum, num_clipped_samples,
        num_clipped_samples_rfi_excised, spectrogram, timeseries,
        timeseries_rfi_excised } ))

/-- `Statistics.load_from_file`: `assert file_path.exists()` surfaces the
missing-path failure before the file is opened; otherwise the container is
opened and decoded within a single `with` block. -/
def load_from_file (fs : Filesystem) (path : String) :
    Except LoadError (LoadedMetadata × LoadedData) :=
  match fs path with
  | none => .error .notFound
  | some f => decode_statistics f

/-! ## Helper lemmas -/

theorem recalc_loop_dvd (n : ℕ) : ∀ j, recalc_loop n j ∣ n
  | 0 => dvd_rfl
  | 1 => dvd_rfl
  | j + 2 => by
      rw [recalc_loop]
      split
      · exact Nat.div_dvd_of_dvd (Nat.dvd_of_mod_eq_zero (by assumption))
      · exact recalc_loop_dvd n (j + 1)

theorem recalc_nbins_dvd (n r : ℕ) : recalc_nbins n r ∣ n := by
  rw [recalc_nbins]
  split
  · exact Nat.dvd_of_mod_eq_zero (by assumption)
  · exact recalc_loop_dvd n _

theorem recalc_loop_cases (n : ℕ) : ∀ j,
    (∃ k, 2 ≤ k ∧ k ≤ j ∧ k ∣ n ∧ (∀ k', k < k' → k' ≤ j → ¬ k' ∣ n) ∧
      recalc_loop n j = n / k) ∨
    ((∀ k, 2 ≤ k → k ≤ j → ¬ k ∣ n) ∧ recalc_loop n j = n)
  | 0 => Or.inr ⟨fun k h2 h0 => absurd (h2.trans h0) (by omega), rfl⟩
  | 1 => Or.inr ⟨fun k h2 h1 => absurd (h2.trans h1) (by omega), rfl⟩
  | j + 2 => by
      by_cases h : n % (j + 2) = 0
      · refine Or.inl ⟨j + 2, by omega, le_refl _, Nat.dvd_of_mod_eq_zero h,
          fun k' hlt hle => absurd (lt_of_lt_of_le hlt hle) (lt_irrefl _), ?_⟩
        rw [recalc_loop, if_pos h]
      · have hrec : recalc_loop n (j + 2) = recalc_loop n (j + 1) := by
          rw [recalc_loop, if_neg h]
        rcases recalc_loop_cases n (j + 1) with ⟨k, h2, hle, hdvd, hmax, heq⟩ | ⟨hall, heq⟩
        · refine Or.inl ⟨k, h2, by omega, hdvd, ?_, by rw [hrec, heq]⟩
          intro k' hlt hle'
          rcases Nat.lt_or_ge k' (j + 2) with h' | h'
          · exact hmax k' hlt (by omega)
          · have hk' : k' = j + 2 := by omega
            subst hk'
            exact fun hd => h (Nat.mod_eq_zero_of_dvd hd)
        · refine Or.inr ⟨?_, by rw [hrec, heq]⟩
          intro k h2k hlek
          rcases Nat.lt_or_ge k (j + 2) with h' | h'
          · exact hall k h2k (by omega)
          · have hk : k = j + 2 := by omega
            subst hk
            exact fun hd => h (Nat.mod_eq_zero_of_dvd hd)

theorem countP_partition (n : ℕ) (f : ℤ → Option ℕ) :
    ∀ xs : List ℤ, (∀ v ∈ xs, ∃ b, b < n ∧ f v = some b) →
      ∑ b in Finset.range n, xs.countP (fun v => f v == some b) = xs.length
  | [], _ => by simp
  | x :: xs, h => by
      obtain ⟨b0, hb0, hfx⟩ := h x (List.mem_cons_self x xs)
      have ih := countP_partition n f xs (fun v hv => h v (List.mem_cons_of_mem x hv))
      simp only [List.countP_cons, List.length_cons]
      rw [Finset.sum_add_distrib, ih]
      congr 1
      have hite : ∀ b, (if (f x == some b) = true then 1 else 0)
          = if b0 = b then 1 else 0 := by
        intro b
        rw [hfx]
        by_cases hb : b0 = b
        · simp [hb]
        · simp [hb, Ne.symm hb]
      rw [Finset.sum_congr rfl (fun b _ => hite b)]
      rw [Finset.sum_ite_eq (Finset.range n) b0 (fun _ => 1)]
      simp [Finset.mem_range.mpr hb0]

theorem nbit_limit_pos (c : StatConfig) : 1 ≤ c.nbit_limit :=
  Nat.one_le_two_pow

theorem clip_sample_mem (c : StatConfig) (v : ℤ) :
    c.clipped_low ≤ clip_sample c v ∧ clip_sample c v ≤ c.clipped_high := by
  have h : (1 : ℤ) ≤ (c.nbit_limit : ℤ) := by exact_mod_cast nbit_limit_pos c
  simp only [clip_sample, StatConfig.clipped_low, StatConfig.clipped_high]
  constructor <;> (split_ifs <;> omega)

theorem bin_index_of_mem (c : StatConfig) (v : ℤ)
    (h1 : c.clipped_low ≤ v) (h2 : v ≤ c.clipped_high) :
    ∃ b, b < c.nbin ∧ bin_index c v = some b := by
  have hn : 1 ≤ c.nbin := Nat.one_le_two_pow
  refine ⟨min ((v - c.clipped_low).toNat * c.nbin / (c.clipped_high - c.clipped_low).toNat)
    (c.nbin - 1), ?_, ?_⟩
  · have hmin : min ((v - c.clipped_low).toNat * c.nbin
        / (c.clipped_high - c.clipped_low).toNat) (c.nbin - 1) ≤ c.nbin - 1 :=
      min_le_right _ _
    omega
  · rw [bin_index, if_neg (by push_neg; omega)]

theorem sum_block (M : Type) [AddCommMonoid M] (g : ℕ → M) :
    ∀ k f : ℕ, ∑ b in Finset.range k, ∑ i in Finset.range f, g (b * f + i)
      = ∑ m in Finset.range (k * f), g m
  | 0, f => by simp
  | k + 1, f => by
      rw [Finset.sum_range_succ, sum_block M g k f, Nat.succ_mul, Finset.sum_range_add]

theorem sum_sq_dev (M : ℕ) (hM : 1 ≤ M) (y : ℕ → ℚ) (a : ℚ) :
    ∑ s in Finset.range M, (y s - a) ^ 2
      = (∑ s in Finset.range M, (y s - (∑ s in Finset.range M, y s) / M) ^ 2)
        + M * ((∑ s in Finset.range M, y s) / M - a) ^ 2 := by
  have hM0 : (M : ℚ) ≠ 0 := Nat.cast_ne_zero.mpr (by omega)
  set m : ℚ := (∑ s in Finset.range M, y s) / M with hm
  have hsum : ∑ s in Finset.range M, y s = M * m := by
    rw [hm]; field_simp
  have key : ∀ s, (y s - a) ^ 2
      = (y s - m) ^ 2 + 2 * (m - a) * (y s - m) + (m - a) ^ 2 := fun s => by ring
  rw [Finset.sum_congr rfl fun s _ => key s, Finset.sum_add_distrib, Finset.sum_add_distrib,
    ← Finset.mul_sum]
  have hzero : ∑ s in Finset.range M, (y s - m) = 0 := by
    rw [Finset.sum_sub_distrib, hsum, Finset.sum_const, Finset.card_range, nsmul_eq_mul]; ring
  rw [hzero, Finset.sum_const, Finset.card_range, nsmul_eq_mul]
  ring

theorem list_sum_map_add {α : Type} (l : List α) (f g : α → ℚ) :
    (l.map (fun x => f x + g x)).sum = (l.map f).sum + (l.map g).sum := by
  induction l with
  | nil => simp
  | cons x xs ih => simp only [List.map_cons, List.sum_cons, ih]; ring

theorem mean_spectrum_def (c : StatConfig) (raw : RawData) (p d ch : ℕ) :
    mean_spectrum c raw p d ch
      = (∑ s in Finset.range c.total_samples_per_channel, scaled c raw p d ch s) / (c.total_samples_per_channel : ℚ) := rfl

theorem pooled_var_decomp (c : StatConfig) (raw : RawData) (p d : ℕ) (cs : List ℕ)
    (hM : 2 ≤ c.total_samples_per_channel) (hcs : cs ≠ []) :
    (((cs.length * c.total_samples_per_channel : ℕ) : ℚ) - 1) * pooled_var_over cs c raw p d
      = (cs.map (fun ch => ((c.total_samples_per_channel : ℚ) - 1) * variance_spectrum c raw p d ch)).sum
        + (c.total_samples_per_channel : ℚ) * (cs.map (fun ch =>
            (mean_spectrum c raw p d ch - pooled_mean_over cs c raw p d) ^ 2)).sum := by
  have hlen : 1 ≤ cs.length := List.length_pos.mpr hcs
  have hN : (2 : ℚ) ≤ ((cs.length * c.total_samples_per_channel : ℕ) : ℚ) := by
    have h2 : 2 ≤ cs.length * c.total_samples_per_channel := le_trans hM (Nat.le_mul_of_pos_left _ hlen)
    exact_mod_cast h2
  have hN1 : (((cs.length * c.total_samples_per_channel : ℕ) : ℚ) - 1) ≠ 0 := by
    intro h0; rw [sub_eq_zero] at h0; rw [h0] at hN; norm_num at hN
  have ht1 : ((c.total_samples_per_channel : ℚ) - 1) ≠ 0 := by
    have h2 : (2 : ℚ) ≤ (c.total_samples_per_channel : ℚ) := by exact_mod_cast hM
    intro h0; rw [sub_eq_zero] at h0; rw [h0] at h2; norm_num at h2
  rw [pooled_var_over, mul_comm, div_mul_cancel₀ _ hN1]
  have hmap : cs.map (fun ch => ∑ s in Finset.range c.total_samples_per_channel,
        (scaled c raw p d ch s - pooled_mean_over cs c raw p d) ^ 2)
      = cs.map (fun ch =>
          (((c.total_samples_per_channel : ℚ) - 1) * variance_spectrum c raw p d ch)
          + (c.total_samples_per_channel : ℚ)
            * (mean_spectrum c raw p d ch - pooled_mean_over cs c raw p d) ^ 2) := by
    refine List.map_congr_left (fun ch _ => ?_)
    rw [sum_sq_dev c.total_samples_per_channel (by omega) (fun s => scaled c raw p d ch s)
      (pooled_mean_over cs c raw p d)]
    rw [← mean_spectrum_def]
    congr 1
    rw [variance_spectrum, mul_comm, div_mul_cancel₀ _ ht1]
  rw [hmap, list_sum_map_add]
  congr 1
  exact List.sum_map_mul_left cs
    (fun ch => (mean_spectrum c raw p d ch - pooled_mean_over cs c raw p d) ^ 2) _

theorem vec_mean_eq_pooled (c : StatConfig) (raw : RawData) (p d : ℕ) (cs : List ℕ)
    (hcs : cs ≠ []) (ht : 1 ≤ c.total_samples_per_channel) :
    vec_mean (cs.map (mean_spectrum c raw p d)) = pooled_mean_over cs c raw p d := by
  have hlen : (cs.length : ℚ) ≠ 0 := Nat.cast_ne_zero.mpr (List.length_pos.mpr hcs).ne'
  have ht0 : ((c.total_samples_per_channel : ℚ)) ≠ 0 := Nat.cast_ne_zero.mpr (by omega)
  rw [vec_mean, pooled_mean_over]
  have hmap : cs.map (mean_spectrum c raw p d)
      = cs.map (fun ch => sample_sum c raw p d ch * ((c.total_samples_per_channel : ℚ))⁻¹) := by
    refine List.map_congr_left (fun ch _ => ?_)
    rw [mean_spectrum, div_eq_mul_inv]
  rw [hmap, List.sum_map_mul_right, List.length_map, Nat.cast_mul,
    div_eq_div_iff hlen (mul_ne_zero hlen ht0)]
  field_simp
  ring

theorem non_rfi_eq_range (c : StatConfig) :
    c.non_rfi_channel_indexes = List.range c.nchan := by
  simp [StatConfig.non_rfi_channel_indexes, StatConfig.rfi_excised_channel_indexes]

/-! ## Concrete inputs used by individual claims -/

/-- Configuration exhibiting the RFI-excised histogram indexing slip:
8-bit data, 2 channels, 2 samples per channel. -/
def cfg_hist_demo : StatConfig := { nbit := 8, nchan := 2, nsamp := 2, nheap := 1 }

/-- A concrete normal draw: channel 0 samples are 0, channel 1 samples are
`15/64` (which the generator quantizes to the integer 5). -/
def noise_hist_demo : Noise := fun _ _ ch _ => if ch = 0 then 0 else 15 / 64

/-- The raw integer array the generator produces from `noise_hist_demo`. -/
def raw_hist_demo : RawData := fun _ _ ch _ => if ch = 0 then 0 else 5

/-- Configuration for the variance claims: 8-bit data, 2 channels,
2 samples per channel. -/
def cfg_var_demo : StatConfig := { nbit := 8, nchan := 2, nsamp := 2, nheap := 1 }

/-- Raw data whose channels are each constant (0 and 1) so that every
per-channel sample variance vanishes while the pooled variance does not. -/
def raw_var_demo : RawData := fun _ _ ch _ => if ch = 0 then 0 else 1

/-- The scenario configuration of claim C7: nbit=8, nchan=4, nsamp=8, nheap=1,
nfreq_bins=2, ntime_bins=2. -/
def cfg_spectro_demo : StatConfig :=
  { nbit := 8, nchan := 4, nsamp := 8, nheap := 1, nfreq_bins := 2, ntime_bins := 2 }

/-- A configuration whose requested bin counts already divide the totals. -/
def cfg_div_demo : StatConfig :=
  { nbit := 16, nchan := 6, nsamp := 4, nheap := 1, nfreq_bins := 3, ntime_bins := 2 }

/-- A configuration with an invalid `nbit`. -/
def cfg_bad_nbit : StatConfig := { nbit := 12 }

/-- A configuration with a valid `nbit` and a zero requested bin count. -/
def cfg_zero_bins : StatConfig := { nbit := 8, nfreq_bins := 0 }

/-- An empty filesystem. -/
def fs_empty : Filesystem := fun _ => none

/-! ## Claims -/

/-- Claim C1.  The round trip `Statistics.load_from_file ∘
Hdf5FileGenerator.generate` cannot succeed on the frozen sources: the
generator's `_calc_stats` passes the keyword `num_samples` (among others) to a
`StatisticsMetadata` dataclass that has no such field, and `generate` builds a
24-element header row for the 20-field `HDF5_HEADER_TYPE` dtype, whose field
set also lacks the `NUM_SAMPLES` key that `load_from_file` reads. -/
theorem claim_C1_schema_mismatch :
    "num_samples" ∈ calc_stats_metadata_kwargs ∧
    "num_samples" ∉ StatisticsMetadata_fields ∧
    generate_header_row_attrs.length = 24 ∧
    HDF5_HEADER_TYPE_fields.length = 20 ∧
    HDF5_NUM_SAMPLES ∉ HDF5_HEADER_TYPE_fields := by
  decide

/-- Claim C2.  With the RFI-excised channel set empty, the excised 1-D
histogram is *not* equal to its non-excised counterpart: the channel index
list is applied to the flattened (channel, sample) axis, so only the first
`nchan` flattened samples are histogrammed.  On the generator output for
`noise_hist_demo` (the integer data `raw_hist_demo`), bin 133 holds the two
samples of value 5 in the full histogram but zero samples in the excised
one. -/
theorem claim_C2_rfi_hist_mismatch :
    (∀ p d ch s, gen_raw cfg_hist_demo noise_hist_demo p d ch s = raw_hist_demo p d ch s) ∧
    histogram_1d_freq_avg_rfi_excised cfg_hist_demo raw_hist_demo 0 0 133 = 0 ∧
    histogram_1d_freq_avg cfg_hist_demo raw_hist_demo 0 0 133 = 2 := by
  refine ⟨?_, by decide, by decide⟩
  intro p d ch s
  by_cases h : ch = 0
  · simp [gen_raw, gen_sample, noise_hist_demo, raw_hist_demo, h, rint, clip_sample,
      cfg_hist_demo, StatConfig.scale, StatConfig.nbit_limit, StatConfig.clipped_low,
      StatConfig.clipped_high]
  · simp [gen_raw, gen_sample, noise_hist_demo, raw_hist_demo, h, rint, clip_sample,
      cfg_hist_demo, StatConfig.scale, StatConfig.nbit_limit, StatConfig.clipped_low,
      StatConfig.clipped_high]
    norm_num

/-- Claim C3 (counterexample).  `variance_frequency_avg` is not the channel
average of the `variance_spectrum` sample variances: for `raw_var_demo` each
channel is constant, so the channel-averaged variance is 0, while the code's
pooled `np.var(scaled, axis=(-2,-1), ddof=1)` is positive. -/
theorem claim_C3_counterexample :
    vec_mean ((List.range cfg_var_demo.nchan).map (variance_spectrum cfg_var_demo raw_var_demo 0 0))
      ≠ variance_frequency_avg cfg_var_demo raw_var_demo 0 0 := by
  simp [vec_mean, variance_spectrum, variance_frequency_avg, pooled_var_over, pooled_mean_over,
    sample_sum, scaled, mean_spectrum, cfg_var_demo, raw_var_demo, StatConfig.total_samples_per_channel,
    StatConfig.scale, StatConfig.nbit_limit, Finset.sum_range_succ, List.range_succ]
  norm_num

/-- Claim C3 (amended).  The frequency-averaged mean is the channel average of
`mean_spectrum`, which coincides with the pooled mean of all samples; the
frequency-averaged variance is the *pooled* ddof=1 variance over the combined
(channel, sample) axes, related to the per-channel variances by the sample
law of total variance: `(N-1)·var_freq_avg = Σ_ch (M-1)·var_spectrum_ch +
M·Σ_ch (mean_spectrum_ch - mean_freq_avg)²`; likewise over the surviving
channels for the `_rfi_excised` variants. -/
theorem claim_C3_variance_pooled (c : StatConfig) (raw : RawData) (p d : ℕ)
    (hM : 2 ≤ c.total_samples_per_channel) (hn : 1 ≤ c.nchan) :
    mean_frequency_avg c raw p d = pooled_mean_over (List.range c.nchan) c raw p d ∧
    mean_frequency_avg_rfi_excised c raw p d
      = pooled_mean_over c.non_rfi_channel_indexes c raw p d ∧
    (((c.nchan * c.total_samples_per_channel : ℕ) : ℚ) - 1) * variance_frequency_avg c raw p d
      = ((List.range c.nchan).map
          (fun ch => ((c.total_samples_per_channel : ℚ) - 1) * variance_spectrum c raw p d ch)).sum
        + (c.total_samples_per_channel : ℚ) * ((List.range c.nchan).map (fun ch =>
            (mean_spectrum c raw p d ch - mean_frequency_avg c raw p d) ^ 2)).sum ∧
    (((c.non_rfi_channel_indexes.length * c.total_samples_per_channel : ℕ) : ℚ) - 1)
        * variance_frequency_avg_rfi_excised c raw p d
      = (c.non_rfi_channel_indexes.map
          (fun ch => ((c.total_samples_per_channel : ℚ) - 1) * variance_spectrum c raw p d ch)).sum
        + (c.total_samples_per_channel : ℚ) * (c.non_rfi_channel_indexes.map (fun ch =>
            (mean_spectrum c raw p d ch
              - mean_frequency_avg_rfi_excised c raw p d) ^ 2)).sum := by
  have hne : List.range c.nchan ≠ [] := by
    intro h0
    rw [List.range_eq_nil] at h0
    omega
  have hne' : c.non_rfi_channel_indexes ≠ [] := by
    rw [non_rfi_eq_range]; exact hne
  have h1 : mean_frequency_avg c raw p d
      = pooled_mean_over (List.range c.nchan) c raw p d :=
    vec_mean_eq_pooled c raw p d (List.range c.nchan) hne (by omega)
  have h2 : mean_frequency_avg_rfi_excised c raw p d
      = pooled_mean_over c.non_rfi_channel_indexes c raw p d :=
    vec_mean_eq_pooled c raw p d c.non_rfi_channel_indexes hne' (by omega)
  refine ⟨h1, h2, ?_, ?_⟩
  · have hd := pooled_var_decomp c raw p d (List.range c.nchan) hM hne
    rw [List.length_range] at hd
    rw [variance_frequency_avg, hd, h1]
  · have hd := pooled_var_decomp c raw p d c.non_rfi_channel_indexes hM hne'
    rw [variance_frequency_avg_rfi_excised, hd, h2]

/-- Claim C3 (witness): the amended identities instantiated on
`cfg_var_demo` and `raw_var_demo`. -/
theorem claim_C3_witness :
    (2 ≤ cfg_var_demo.total_samples_per_channel ∧ 1 ≤ cfg_var_demo.nchan) ∧
    (mean_frequency_avg cfg_var_demo raw_var_demo 0 0
        = pooled_mean_over (List.range cfg_var_demo.nchan) cfg_var_demo raw_var_demo 0 0 ∧
      mean_frequency_avg_rfi_excised cfg_var_demo raw_var_demo 0 0
        = pooled_mean_over cfg_var_demo.non_rfi_channel_indexes cfg_var_demo raw_var_demo 0 0 ∧
      (((cfg_var_demo.nchan * cfg_var_demo.total_samples_per_channel : ℕ) : ℚ) - 1)
          * variance_frequency_avg cfg_var_demo raw_var_demo 0 0
        = ((List.range cfg_var_demo.nchan).map
            (fun ch => ((cfg_var_demo.total_samples_per_channel : ℚ) - 1)
              * variance_spectrum cfg_var_demo raw_var_demo 0 0 ch)).sum
          + (cfg_var_demo.total_samples_per_channel : ℚ) * ((List.range cfg_var_demo.nchan).map (fun ch =>
              (mean_spectrum cfg_var_demo raw_var_demo 0 0 ch
                - mean_frequency_avg cfg_var_demo raw_var_demo 0 0) ^ 2)).sum ∧
      (((cfg_var_demo.non_rfi_channel_indexes.length * cfg_var_demo.total_samples_per_channel : ℕ) : ℚ) - 1)
          * variance_frequency_avg_rfi_excised cfg_var_demo raw_var_demo 0 0
        = (cfg_var_demo.non_rfi_channel_indexes.map
            (fun ch => ((cfg_var_demo.total_samples_per_channel : ℚ) - 1)
              * variance_spectrum cfg_var_demo raw_var_demo 0 0 ch)).sum
          + (cfg_var_demo.total_samples_per_channel : ℚ) * (cfg_var_demo.non_rfi_channel_indexes.map (fun ch =>
              (mean_spectrum cfg_var_demo raw_var_demo 0 0 ch
                - mean_frequency_avg_rfi_excised cfg_var_demo raw_var_demo 0 0) ^ 2)).sum) :=
  ⟨⟨by decide, by decide⟩,
    claim_C3_variance_pooled cfg_var_demo raw_var_demo 0 0 (by decide) (by decide)⟩

/-- Claim C4 (counterexample).  `_recalc_nbins(10, 4)` returns 5, which
exceeds the request 4 (the largest exact divisor of 10 that is ≤ 4 is 2). -/
theorem claim_C4_counterexample :
    recalc_nbins 10 4 = 5 ∧ ¬ recalc_nbins 10 4 ≤ 4 := by
  decide

/-- Claim C4 (amended).  The adjusted bin count always divides the total:
it is the request itself when the request divides the total, and otherwise it
is `total / k` for the largest factor `k` with `2 ≤ k ≤ total // request` that
divides the total (a divisor of the total that may exceed the request), with
the full total used when no such factor exists. -/
theorem claim_C4_recalc_characterisation (n r : ℕ) (_hn : 1 ≤ n) (_hr : 1 ≤ r) :
    recalc_nbins n r ∣ n ∧
    (n % r = 0 → recalc_nbins n r = r) ∧
    (n % r ≠ 0 →
      (∃ k, 2 ≤ k ∧ k ≤ n / r ∧ k ∣ n ∧ (∀ j, k < j → j ≤ n / r → ¬ j ∣ n) ∧
        recalc_nbins n r = n / k) ∨
      ((∀ j, 2 ≤ j → j ≤ n / r → ¬ j ∣ n) ∧ recalc_nbins n r = n)) := by
  refine ⟨recalc_nbins_dvd n r, fun h => by rw [recalc_nbins, if_pos h], fun h => ?_⟩
  have hrw : recalc_nbins n r = recalc_loop n (max (n / r) 1) := by
    rw [recalc_nbins, if_neg h]
  rcases recalc_loop_cases n (max (n / r) 1) with ⟨k, h2, hle, hdvd, hmax, heq⟩ | ⟨hall, heq⟩
  · refine Or.inl ⟨k, h2, by omega, hdvd, ?_, by rw [hrw, heq]⟩
    exact fun j hj hjle => hmax j hj (by omega)
  · refine Or.inr ⟨?_, by rw [hrw, heq]⟩
    exact fun j h2j hjle => hall j h2j (by omega)

/-- Claim C4 (witness): the characterisation instantiated at total 10,
request 4. -/
theorem claim_C4_witness :
    (1 ≤ 10 ∧ 1 ≤ 4) ∧
    (recalc_nbins 10 4 ∣ 10 ∧
      (10 % 4 = 0 → recalc_nbins 10 4 = 4) ∧
      (10 % 4 ≠ 0 →
        (∃ k, 2 ≤ k ∧ k ≤ 10 / 4 ∧ k ∣ 10 ∧ (∀ j, k < j → j ≤ 10 / 4 → ¬ j ∣ 10) ∧
          recalc_nbins 10 4 = 10 / k) ∨
        ((∀ j, 2 ≤ j → j ≤ 10 / 4 → ¬ j ∣ 10) ∧ recalc_nbins 10 4 = 10))) :=
  ⟨⟨by decide, by decide⟩, claim_C4_recalc_characterisation 10 4 (by decide) (by decide)⟩

/-- Claim C5.  After `__post_init__`, the adjusted `nfreq_bins` divides
`nchan` and the adjusted `ntime_bins` divides `nheap * nsamp`, for any
requested bin counts between 1 and the respective totals. -/
theorem claim_C5_bin_divisibility (c c' : StatConfig)
    (hb : c.nbit = 8 ∨ c.nbit = 16)
    (h1 : 1 ≤ c.nfreq_bins) (_h2 : c.nfreq_bins ≤ c.nchan)
    (h3 : 1 ≤ c.ntime_bins) (_h4 : c.ntime_bins ≤ c.nheap * c.nsamp)
    (hok : StatConfig.post_init c = .ok c') :
    c'.nchan % c'.nfreq_bins = 0 ∧ (c'.nheap * c'.nsamp) % c'.ntime_bins = 0 := by
  rw [StatConfig.post_init, if_pos hb, if_neg (by omega), if_neg (by omega)] at hok
  simp only [Except.ok.injEq] at hok
  subst hok
  exact ⟨Nat.mod_eq_zero_of_dvd (recalc_nbins_dvd c.nchan c.nfreq_bins),
    Nat.mod_eq_zero_of_dvd (recalc_nbins_dvd (c.nheap * c.nsamp) c.ntime_bins)⟩

/-- Claim C5 (witness): the divisibility facts on `cfg_div_demo`, whose
adjustment is the identity. -/
theorem claim_C5_witness :
    ((cfg_div_demo.nbit = 8 ∨ cfg_div_demo.nbit = 16) ∧
      1 ≤ cfg_div_demo.nfreq_bins ∧ cfg_div_demo.nfreq_bins ≤ cfg_div_demo.nchan ∧
      1 ≤ cfg_div_demo.ntime_bins ∧
      cfg_div_demo.ntime_bins ≤ cfg_div_demo.nheap * cfg_div_demo.nsamp) ∧
    (cfg_div_demo.nchan % cfg_div_demo.nfreq_bins = 0 ∧
      (cfg_div_demo.nheap * cfg_div_demo.nsamp) % cfg_div_demo.ntime_bins = 0) :=
  ⟨⟨by decide, by decide, by decide, by decide, by decide⟩,
    claim_C5_bin_divisibility cfg_div_demo cfg_div_demo (by decide) (by decide) (by decide)
      (by decide) (by decide) rfl⟩

/-- Claim C6.  Every raw sample is clipped into the histogram range, so for
any configuration, draw, polarisation and dimension the 1-D histogram bins
sum to `nchan * total_samples_per_channel`. -/
theorem claim_C6_histogram_total (c : StatConfig) (noise : Noise) (p d : ℕ) :
    ∑ b in Finset.range c.nbin, histogram_1d_freq_avg c (gen_raw c noise) p d b
      = c.nchan * c.total_samples_per_channel := by
  unfold histogram_1d_freq_avg
  rw [countP_partition c.nbin (bin_index c) _ ?_]
  · simp [flattened_list]
  · intro v hv
    simp only [flattened_list, List.mem_map] at hv
    obtain ⟨i, _, rfl⟩ := hv
    have hb := clip_sample_mem c (rint (noise p d (i / c.total_samples_per_channel) (i % c.total_samples_per_channel) / c.scale))
    exact bin_index_of_mem c _ hb.1 hb.2

/-- Claim C7.  For the scenario configuration (nbit=8, nchan=4, nsamp=8,
nheap=1, nfreq_bins=2, ntime_bins=2), `__post_init__` leaves the bin counts
at 2 and 2, the spectrogram grid is `(npol, 2, 2)`, and for every draw and
polarisation the spectrogram entries sum to the total power: the frequency
and time blocks partition the (channel, sample) grid exactly. -/
theorem claim_C7_spectrogram_power (noise : Noise) (p : ℕ) :
    StatConfig.post_init cfg_spectro_demo = Except.ok cfg_spectro_demo ∧
    cfg_spectro_demo.npol = 2 ∧ cfg_spectro_demo.nfreq_bins = 2 ∧
    cfg_spectro_demo.ntime_bins = 2 ∧
    (∑ fb in Finset.range cfg_spectro_demo.nfreq_bins,
        ∑ tb in Finset.range cfg_spectro_demo.ntime_bins,
          spectrogram cfg_spectro_demo (gen_raw cfg_spectro_demo noise) p fb tb)
      = ∑ ch in Finset.range cfg_spectro_demo.nchan,
          ∑ s in Finset.range cfg_spectro_demo.total_samples_per_channel,
            power cfg_spectro_demo (gen_raw cfg_spectro_demo noise) p ch s := by
  refine ⟨by rfl, by decide, by decide, by decide, ?_⟩
  unfold spectrogram
  have h1 : cfg_spectro_demo.nchan / cfg_spectro_demo.nfreq_bins = 2 := by decide
  have h2 : cfg_spectro_demo.total_samples_per_channel / cfg_spectro_demo.ntime_bins = 4 := by decide
  have h3 : cfg_spectro_demo.nfreq_bins = 2 := by decide
  have h4 : cfg_spectro_demo.ntime_bins = 2 := by decide
  have h5 : cfg_spectro_demo.nchan = 4 := by decide
  have h6 : cfg_spectro_demo.total_samples_per_channel = 8 := by decide
  rw [h1, h2, h3, h4, h5, h6]
  calc ∑ fb in Finset.range 2, ∑ tb in Finset.range 2, ∑ i in Finset.range 2,
        ∑ j in Finset.range 4, power cfg_spectro_demo (gen_raw cfg_spectro_demo noise) p
          (fb * 2 + i) (tb * 4 + j)
      = ∑ fb in Finset.range 2, ∑ i in Finset.range 2, ∑ tb in Finset.range 2,
        ∑ j in Finset.range 4, power cfg_spectro_demo (gen_raw cfg_spectro_demo noise) p
          (fb * 2 + i) (tb * 4 + j) :=
        Finset.sum_congr rfl (fun fb _ => Finset.sum_comm)
    _ = ∑ fb in Finset.range 2, ∑ i in Finset.range 2, ∑ s in Finset.range 8,
        power cfg_spectro_demo (gen_raw cfg_spectro_demo noise) p (fb * 2 + i) s := by
        refine Finset.sum_congr rfl (fun fb _ => Finset.sum_congr rfl (fun i _ => ?_))
        exact sum_block ℚ (power cfg_spectro_demo (gen_raw cfg_spectro_demo noise) p
          (fb * 2 + i)) 2 4
    _ = ∑ ch in Finset.range 4, ∑ s in Finset.range 8,
        power cfg_spectro_demo (gen_raw cfg_spectro_demo noise) p ch s :=
        sum_block ℚ (fun ch => ∑ s in Finset.range 8,
          power cfg_spectro_demo (gen_raw cfg_spectro_demo noise) p ch s) 2 2

/-- Claim C8.  `Statistics.load_from_file` on a path that does not exist fails
with the missing-file error before the container is opened; no statistics
value is produced and nothing is retried. -/
theorem claim_C8_missing_file (fs : Filesystem) (path : String) (h : fs path = none) :
    load_from_file fs path = .error .notFound := by
  simp [load_from_file, h]

/-- Claim C8 (witness): loading from the empty filesystem. -/
theorem claim_C8_witness :
    fs_empty "missing.h5" = none ∧
    load_from_file fs_empty "missing.h5" = .error .notFound :=
  ⟨rfl, claim_C8_missing_file fs_empty "missing.h5" rfl⟩

/-- Claim C9 (counterexample).  A `StatConfig` with the valid `nbit = 8` but a
zero requested `nfreq_bins` still fails at construction time, with Python's
`ZeroDivisionError` rather than a successful construction. -/
theorem claim_C9_counterexample :
    cfg_zero_bins.nbit = 8 ∧
    StatConfig.post_init cfg_zero_bins = Except.error GenError.zeroDivision :=
  ⟨rfl, rfl⟩

/-- Claim C9 (amended).  An `nbit` outside {8, 16} makes `__post_init__` fail
with the validation error before any bin adjustment; with `nbit` in {8, 16}
and nonzero requested bin counts, construction succeeds. -/
theorem claim_C9_nbit_validation (c : StatConfig) :
    (¬ (c.nbit = 8 ∨ c.nbit = 16) → StatConfig.post_init c = .error .configError) ∧
    ((c.nbit = 8 ∨ c.nbit = 16) → 1 ≤ c.nfreq_bins → 1 ≤ c.ntime_bins →
      ∃ c', StatConfig.post_init c = .ok c') := by
  constructor
  · intro h
    rw [StatConfig.post_init, if_neg h]
  · intro hb h1 h2
    exact ⟨_, by rw [StatConfig.post_init, if_pos hb, if_neg (by omega), if_neg (by omega)]⟩

/-- Claim C9 (witness): `nbit = 12` is rejected with the validation error;
the default 16-bit configuration constructs successfully. -/
theorem claim_C9_witness :
    (¬ (cfg_bad_nbit.nbit = 8 ∨ cfg_bad_nbit.nbit = 16) ∧
      StatConfig.post_init cfg_bad_nbit = .error .configError) ∧
    (∃ c', StatConfig.post_init ({} : StatConfig) = .ok c') :=
  ⟨⟨by decide, (claim_C9_nbit_validation cfg_bad_nbit).1 (by decide)⟩,
    (claim_C9_nbit_validation {}).2 (by decide) (by decide) (by decide)⟩

/-- Claim C10.  The mapped header-key set is not the `StatisticsMetadata`
field set: every metadata field is the image of a header key, but
`CHAN_FREQ`, `FREQUENCY_BINS` and `TIMESERIES_BINS` map to `channel_freq_mhz`,
`frequency_bins` and `timeseries_bins`, which are fields of `StatisticsData`,
not of the `StatisticsMetadata` dataclass — the repository's own
`test_map_hdf5_key` equality fails on the frozen sources. -/
theorem claim_C10_key_mapping_mismatch :
    "channel_freq_mhz" ∈ HDF5_HEADER_KEYS.map map_hdf5_key ∧
    "frequency_bins" ∈ HDF5_HEADER_KEYS.map map_hdf5_key ∧
    "timeseries_bins" ∈ HDF5_HEADER_KEYS.map map_hdf5_key ∧
    "channel_freq_mhz" ∉ StatisticsMetadata_fields ∧
    "frequency_bins" ∉ StatisticsMetadata_fields ∧
    "timeseries_bins" ∉ StatisticsMetadata_fields ∧
    ∀ fieldName ∈ StatisticsMetadata_fields, fieldName ∈ HDF5_HEADER_KEYS.map map_hdf5_key := by
  decide

end SkaPstStat


